import Mathlib

/-!
Verification of the container health-check subsystem of this repository
(`pkg/cmd/container/health_check.go` and the systemd scheduler adapter in
`pkg/healthcheck`).  The Go code is shallowly embedded: pure fragments become
Lean functions, and the runtime / DBus environment that the code queries is
passed in explicitly as data (task status, label contents, probe outcome,
DBus call results).  Durations are nanosecond counts (`Int`, Go
`time.Duration`); Go `int` fields are `Int`; the `uint32` exit code from the
runtime is a `Nat`.
-/

/-! ## Constants (health_check.go) -/

def Starting : String := "starting"

def Healthy : String := "healthy"

def Unhealthy : String := "unhealthy"

def HealthCheckCmdNone : String := "NONE"

def HealthCheckCmd : String := "CMD"

def HealthCheckCmdShell : String := "CMD-SHELL"

def HealthCheckTestNone : String := ""

/-- containerd's `Running` process status string. -/
def RunningStatus : String := "running"

/-! ## Data model (health_check.go structs) -/

/-- Go struct HealthConfig from health_check.go: durations in nanoseconds. -/
structure HealthConfig where
  test : List String
  interval : Int
  timeout : Int
  startPeriod : Int
  retries : Int
deriving Repr, DecidableEq

/-- Go struct Log from health_check.go (one probe execution record).  `end_` stands
for the Go field `End` (`end` is reserved in Lean). -/
structure Log where
  start : Int
  end_ : Int
  exitCode : Int
  output : String
deriving Repr, DecidableEq

/-- Go struct HealthStatus from health_check.go. -/
structure HealthStatus where
  status : String
  failingStreak : Int
  log : List Log
deriving Repr, DecidableEq

/-! ## Go string helpers used by the code -/

/-- Predicate `unicode.IsSpace` on the code points Go treats as white space
(the set used by `strings.TrimSpace`). -/
def goIsSpace (c : Char) : Bool :=
  c.toNat = 32 || c.toNat = 9 || c.toNat = 10 || c.toNat = 11 ||
  c.toNat = 12 || c.toNat = 13 || c.toNat = 0x85 || c.toNat = 0xA0 ||
  c.toNat = 0x1680 || (0x2000 ≤ c.toNat && c.toNat ≤ 0x200A) ||
  c.toNat = 0x2028 || c.toNat = 0x2029 || c.toNat = 0x202F ||
  c.toNat = 0x205F || c.toNat = 0x3000

/-- Go `strings.TrimSpace`: drop white space from both ends. -/
def goTrimSpace (s : String) : String :=
  String.mk (((s.data.dropWhile goIsSpace).reverse.dropWhile goIsSpace).reverse)

def dropTrailingZeros (l : List Char) : List Char :=
  (l.reverse.dropWhile (fun c => c = '0')).reverse

def padLeftZeros (l : List Char) (n : Nat) : List Char :=
  List.replicate (n - l.length) '0' ++ l

/-- The fractional part written by Go `time.Duration.String` via `fmtFrac`:
the low `prec` decimal digits of `u` with trailing zeros removed, preceded
by a dot when non-empty. -/
def goFrac (u : Nat) (prec : Nat) : String :=
  let digits := dropTrailingZeros (padLeftZeros (Nat.toDigits 10 (u % 10 ^ prec)) prec)
  if digits.isEmpty then "" else "." ++ String.mk digits

/-- Go `time.Duration.String` (the `%v` rendering used in the timeout
error message). -/
def goDurationString (d : Int) : String :=
  let u := d.natAbs
  let sign := if d < 0 then "-" else ""
  if u = 0 then "0s"
  else if u < 1000000000 then
    if u < 1000 then sign ++ toString u ++ "ns"
    else if u < 1000000 then sign ++ toString (u / 1000) ++ goFrac u 3 ++ "µs"
    else sign ++ toString (u / 1000000) ++ goFrac u 6 ++ "ms"
  else
    let secs := u / 1000000000
    let sPart := toString (secs % 60) ++ goFrac u 9 ++ "s"
    let mins := secs / 60
    let body :=
      if mins = 0 then sPart
      else
        let mPart := toString (mins % 60) ++ "m" ++ sPart
        let hrs := mins / 60
        if hrs = 0 then mPart else toString hrs ++ "h" ++ mPart
    sign ++ body

/-! ## State updater (updateHealthStatus, health_check.go lines 180-237)

The pure transition applied to the previously stored record; label store
plumbing (the read of `healthcheck/status` and the `SetLabels` write) is
added separately below. -/

def updateHealthStatusCore (config : HealthConfig) (prev : HealthStatus)
    (exitCode : Nat) (output : String) (startTime endTime : Int) : HealthStatus :=
  let hs :=
    if exitCode = 0 then
      { prev with status := Healthy, failingStreak := 0 }
    else
      let streak := prev.failingStreak + 1
      if streak ≥ config.retries then
        { prev with status := Unhealthy, failingStreak := streak }
      else
        { prev with status := Healthy, failingStreak := streak }
  let newLog := hs.log ++
    [{ start := startTime, end_ := endTime, exitCode := Int.ofNat exitCode,
       output := output }]
  let newLog := if newLog.length > 5 then newLog.drop (newLog.length - 5) else newLog
  { hs with log := newLog }

/-- The log entry `updateHealthStatus` appends, built from the probe
result (`Log{Start, End, ExitCode: int(exitCode), Output}`). -/
def mkLog (startTime endTime : Int) (exitCode : Nat) (output : String) : Log :=
  { start := startTime, end_ := endTime, exitCode := Int.ofNat exitCode,
    output := output }

/-- The record used when the `healthcheck/status` label is absent:
`HealthStatus{Status: Starting}`. -/
def initialHealthStatus : HealthStatus :=
  { status := Starting, failingStreak := 0, log := [] }

/-- One probe application, as the history-level step: the inputs
`updateHealthStatus` receives for one tick (its own `HealthConfig`, the
probe's exit code, output and time stamps). -/
structure ProbeInput where
  config : HealthConfig
  exitCode : Nat
  output : String
  startTime : Int
  endTime : Int

def applyProbe (hs : HealthStatus) (i : ProbeInput) : HealthStatus :=
  updateHealthStatusCore i.config hs i.exitCode i.output i.startTime i.endTime

/-- The record reached from the absent-label default after a sequence of
probe applications. -/
def runProbes (l : List ProbeInput) : HealthStatus :=
  l.foldl applyProbe initialHealthStatus

/-! ## Command resolver (prepareProcessSpec, health_check.go lines 239-279)

The container's OCI process view (`container.Spec(ctx).Process`) is passed
in as the read-only pair (env vector, working directory). -/

/-- Go struct `specs.Process` restricted to the fields the code fills in. -/
structure ProcessSpec where
  args : List String
  env : List String
  cwd : String
deriving Repr, DecidableEq

/-- The `switch hcCommand[0]` block of `prepareProcessSpec`: resolve the
configured test vector to the argv to exec (`args` in the Go code). -/
def resolveHealthCheckArgs (hcCommand : List String) : Except String (List String) :=
  match hcCommand.head? with
  | some h =>
    if h = HealthCheckTestNone ∨ h = HealthCheckCmdNone then
      .error "no health check defined"
    else if h = HealthCheckCmd then
      .ok hcCommand.tail
    else if h = HealthCheckCmdShell then
      if hcCommand.length < 2 ∨ goTrimSpace (hcCommand.tail.headD "") = "" then
        .error "no health check command specified"
      else
        .ok ["/bin/sh", "-c", String.intercalate " " hcCommand.tail]
    else
      .ok hcCommand
  | none => .error "no health check command specified"

def prepareProcessSpec (healthConfig : HealthConfig)
    (containerEnv : List String) (containerCwd : String) :
    Except String ProcessSpec :=
  if healthConfig.test.length < 1 then
    .error "no health check command specified"
  else
    match resolveHealthCheckArgs healthConfig.test with
    | .error e => .error e
    | .ok args =>
      if args.length < 1 ∨ args.headD "" = "" then
        .error "no health check command specified"
      else
        .ok { args := args, env := containerEnv, cwd := containerCwd }

/-! ## Probe executor environment (HealthCheck, health_check.go lines 77-177)

Every runtime RPC the function performs is answered from an `Env` value:
the task lookup and its status, the two label reads, the container process
view, the exec outcome (which of the two `select` arms fires), the stdio
buffer contents at read time, and the result of the `SetLabels` write. -/

/-- Result of `container.Task` + `task.Status` as seen by
`verifyContainerStatus`: lookup failure, status query failure, or a status
string. -/
inductive TaskView
  | lookupErr (inner : String)
  | statusErr (inner : String)
  | status (s : String)
deriving Repr, DecidableEq

/-- The `healthcheck/config` label: absent, present but undecodable, or
decoding to a config. -/
inductive ConfigLabelView
  | absent
  | invalid (inner : String)
  | valid (c : HealthConfig)
deriving Repr, DecidableEq

/-- The `healthcheck/status` label. -/
inductive StatusLabelView
  | absent
  | invalid (inner : String)
  | valid (hs : HealthStatus)
deriving Repr, DecidableEq

/-- Which arm of the exec run fires: an RPC error, the
`time.After(config.Timeout)` arm, or the exit-status arm with the probe's
`uint32` exit code. -/
inductive ProbeOutcome
  | execErr (inner : String)
  | startErr (inner : String)
  | waitErr (inner : String)
  | timeout
  | exited (code : Nat)
deriving Repr, DecidableEq

structure Env where
  taskView : TaskView
  infoErr : Option String
  configLabel : ConfigLabelView
  statusLabel : StatusLabelView
  procEnv : List String
  procCwd : String
  outcome : ProbeOutcome
  stdout : String
  stderr : String
  startTime : Int
  endTime : Int
  setLabelsErr : Option String

/-- What one `HealthCheck` invocation did: the returned error (`none` =
success), the `healthcheck/status` label value written (`none` = no write
happened), and whether `SIGKILL` was delivered to the exec. -/
structure RunResult where
  err : Option String
  statusWritten : Option HealthStatus
  sigkillSent : Bool
deriving Repr, DecidableEq

def verifyContainerStatus : TaskView → Except String Unit
  | .lookupErr inner => .error ("failed to get container task: " ++ inner)
  | .statusErr inner => .error ("failed to get container status: " ++ inner)
  | .status s =>
    if s ≠ RunningStatus then
      .error ("container is not running (status: " ++ s ++ ")")
    else
      .ok ()

/-- Function `updateHealthStatus` (health_check.go lines 180-237) with its label I/O:
re-reads container info and the `healthcheck/status` label, applies the
transition, and performs the `SetLabels` write.  `.ok hs` means `hs` was
written. -/
def updateHealthStatusIO (env : Env) (config : HealthConfig)
    (exitCode : Nat) (output : String) : Except String HealthStatus :=
  match env.infoErr with
  | some e => .error ("failed to get container info: " ++ e)
  | none =>
    let prevE : Except String HealthStatus :=
      match env.statusLabel with
      | .invalid inner => .error ("invalid health status: " ++ inner)
      | .valid hs => .ok hs
      | .absent => .ok initialHealthStatus
    match prevE with
    | .error e => .error e
    | .ok prev =>
      let hs := updateHealthStatusCore config prev exitCode output
        env.startTime env.endTime
      match env.setLabelsErr with
      | some e => .error ("failed to update container labels: " ++ e)
      | none => .ok hs

/-- Function `HealthCheck` (health_check.go lines 77-158) over an `Env`. -/
def HealthCheckRun (env : Env) : RunResult :=
  match verifyContainerStatus env.taskView with
  | .error e => { err := some e, statusWritten := none, sigkillSent := false }
  | .ok _ =>
    match env.infoErr with
    | some e =>
      { err := some ("failed to get container info: " ++ e),
        statusWritten := none, sigkillSent := false }
    | none =>
      match env.configLabel with
      | .absent =>
        { err := some "container has no health check configured",
          statusWritten := none, sigkillSent := false }
      | .invalid inner =>
        { err := some ("invalid health check configuration: " ++ inner),
          statusWritten := none, sigkillSent := false }
      | .valid config =>
        match prepareProcessSpec config env.procEnv env.procCwd with
        | .error e => { err := some e, statusWritten := none, sigkillSent := false }
        | .ok _ps =>
          match env.outcome with
          | .execErr inner =>
            { err := some ("failed to execute health check: " ++ inner),
              statusWritten := none, sigkillSent := false }
          | .startErr inner =>
            { err := some ("failed to start health check: " ++ inner),
              statusWritten := none, sigkillSent := false }
          | .waitErr inner =>
            { err := some ("failed to wait for health check: " ++ inner),
              statusWritten := none, sigkillSent := false }
          | .timeout =>
            let healthOutput := goTrimSpace (env.stdout ++ env.stderr)
            match updateHealthStatusIO env config 1
                ("health check timed out: " ++ healthOutput) with
            | .error e =>
              { err := some ("failed to update health status after timeout: " ++ e),
                statusWritten := none, sigkillSent := true }
            | .ok hs =>
              { err := some ("health check timed out after " ++
                  goDurationString config.timeout),
                statusWritten := some hs, sigkillSent := true }
          | .exited code =>
            let healthOutput := goTrimSpace (env.stdout ++ env.stderr)
            if code ≠ 0 then
              match updateHealthStatusIO env config code healthOutput with
              | .error e =>
                { err := some ("failed to update health status: " ++ e),
                  statusWritten := none, sigkillSent := false }
              | .ok hs =>
                { err := some ("health check failed with code " ++ toString code),
                  statusWritten := some hs, sigkillSent := false }
            else
              match updateHealthStatusIO env config 0 healthOutput with
              | .error e =>
                { err := some ("failed to update health status after success: " ++ e),
                  statusWritten := none, sigkillSent := false }
              | .ok hs =>
                { err := none, statusWritten := some hs, sigkillSent := false }

/-! ## The earlier transition variant (src/unnamed/part_003 lines 184-227)

`updateHealthStatus` in the older snapshot of health_check.go: on a failure
below the retry threshold it leaves `status` unchanged (and it stamps the
record's `End` only when turning unhealthy). -/

/-- Go struct `HealthStatus` as declared in part_003 (extra `Start`/`End` stamps). -/
structure HealthStatusV0 where
  status : String
  failingStreak : Int
  log : List Log
  start : Int
  end_ : Int
deriving Repr, DecidableEq

def updateHealthStatusCoreV0 (config : HealthConfig) (prev : HealthStatusV0)
    (exitCode : Nat) (output : String) (startTime endTime : Int) : HealthStatusV0 :=
  let hs :=
    if exitCode = 0 then
      { prev with status := Healthy, failingStreak := 0 }
    else
      let streak := prev.failingStreak + 1
      if streak ≥ config.retries then
        { prev with status := Unhealthy, failingStreak := streak, end_ := endTime }
      else
        { prev with failingStreak := streak }
  let newLog := hs.log ++
    [{ start := startTime, end_ := endTime, exitCode := Int.ofNat exitCode,
       output := output }]
  let newLog := if newLog.length > 5 then newLog.drop (newLog.length - 5) else newLog
  { hs with log := newLog }

/-! ## Scheduler adapter (src/unnamed/part_005, pkg/healthcheck systemd)

`Healthcheck` is the config type of the `pkg/healthcheck` package; only its
declaration is missing from the sources, its two fields used here (`Test`,
`Interval`) are taken from their uses in part_005. -/

/-- Modelled from the spec: the `pkg/healthcheck` ProbeSpec value whose
declaration is not in the provided sources; part_005 reads its `Test`
vector and `Interval` duration. -/
structure Healthcheck where
  Test : List String
  Interval : Int
deriving Repr, DecidableEq

/-- Function `shouldSkipHealthCheckSystemd` (part_005 lines 184-195).
`systemdAvailable` stands for `defaults.IsSystemdAvailable()` and
`disableHCSystemd` for `os.Getenv("DISABLE_HC_SYSTEMD") == "true"`. -/
def shouldSkipHealthCheckSystemd (systemdAvailable disableHCSystemd : Bool)
    (hc : Option Healthcheck) : Bool :=
  if !systemdAvailable || disableHCSystemd then true
  else
    match hc with
    | none => true
    | some h => h.Test.isEmpty || h.Test.head? == some "NONE" || h.Interval == 0

/-- Function `hcUnitName` (part_005 lines 154-163); `randHex` stands for the
`fmt.Sprintf("-%x", rand.Int())` suffix used when `bare` is false. -/
def hcUnitName (containerID : String) (bare : Bool) (randHex : String) : String :=
  if bare then containerID else containerID ++ "-" ++ randHex

/-- DBus responses for one `RemoveTransientHealthCheckFiles` run:
`connOK = false` means `dbus.NewSystemConnectionContext` failed; a stop
result of `none` means `StopUnitContext` returned an error, `some msg`
means the job completed with result message `msg`. -/
structure DBusEnv where
  connOK : Bool
  stopTimerResult : Option String
  stopServiceResult : Option String
deriving Repr, DecidableEq

/-- Observable effects of `RemoveTransientHealthCheckFiles`: the returned
error, the `StopUnitContext` calls issued as (unit, mode) pairs, the
`ResetFailedUnitContext` calls, and the warnings logged. -/
structure RemoveResult where
  err : Option String
  stopCalls : List (String × String)
  resetCalls : List String
  warnings : List String
deriving Repr, DecidableEq

/-- Function `RemoveTransientHealthCheckFiles` (part_005 lines 111-151).  `hc` is the
result of `extractHealthcheck` (which maps label-read and decode failures
to `nil`). -/
def RemoveTransientHealthCheckFiles (hc : Option Healthcheck)
    (systemdAvailable disableHCSystemd : Bool) (containerID : String)
    (env : DBusEnv) : RemoveResult :=
  match hc with
  | none => { err := none, stopCalls := [], resetCalls := [], warnings := [] }
  | some h =>
    if shouldSkipHealthCheckSystemd systemdAvailable disableHCSystemd (some h) then
      { err := none, stopCalls := [], resetCalls := [], warnings := [] }
    else if !env.connOK then
      { err := some "systemd DBUS connect error", stopCalls := [],
        resetCalls := [], warnings := [] }
    else
      let unitName := hcUnitName containerID true ""
      let timer := unitName ++ ".timer"
      let service := unitName ++ ".service"
      let w1 :=
        match env.stopTimerResult with
        | some msg => if msg ≠ "done" then ["timer stop message: " ++ msg] else []
        | none => []
      let w2 :=
        match env.stopServiceResult with
        | some msg => if msg ≠ "done" then ["service stop message: " ++ msg] else []
        | none => []
      { err := none,
        stopCalls := [(timer, "ignore-dependencies"), (service, "ignore-dependencies")],
        resetCalls := [service],
        warnings := w1 ++ w2 }

/-! ## Concrete inputs used by the claim theorems -/

/-- Config for `--health-cmd "sleep 10" --health-timeout 2s --health-interval 1s`. -/
def cfgTimeout : HealthConfig :=
  { test := ["CMD-SHELL", "sleep 10"], interval := 1000000000,
    timeout := 2000000000, startPeriod := 0, retries := 0 }

/-- A probe run against a running container that hits the timeout arm with
`"partial "` accumulated on stdout. -/
def envTimeout : Env :=
  { taskView := .status "running", infoErr := none,
    configLabel := .valid cfgTimeout, statusLabel := .absent,
    procEnv := ["PATH=/usr/bin"], procCwd := "/", outcome := .timeout,
    stdout := "partial ", stderr := "", startTime := 0,
    endTime := 2000000000, setLabelsErr := none }

/-- Config for `--health-cmd "exit 1" --health-start-period 30s --health-retries 2`. -/
def cfgStartPeriod : HealthConfig :=
  { test := ["CMD-SHELL", "exit 1"], interval := 1000000000,
    timeout := 1000000000, startPeriod := 30000000000, retries := 2 }

/-- Config for `--health-cmd "exit 1" --health-retries 3`. -/
def cfgRetries3 : HealthConfig :=
  { test := ["CMD-SHELL", "exit 1"], interval := 1000000000,
    timeout := 1000000000, startPeriod := 0, retries := 3 }

/-- One failing probe under `cfgRetries3`. -/
def failInput3 : ProbeInput :=
  { config := cfgRetries3, exitCode := 1, output := "", startTime := 0, endTime := 1 }

/-- One succeeding probe under `cfgRetries3`. -/
def okInput3 : ProbeInput :=
  { config := cfgRetries3, exitCode := 0, output := "ok", startTime := 0, endTime := 1 }

/-- A 5000-byte probe output (over the 4 KiB bound of the spec). -/
def bigOutput : String := String.mk (List.replicate 5000 'X')

/-- Config with direct-exec test vector CMD, ls, -l. -/
def cfgCmd : HealthConfig :=
  { test := ["CMD", "ls", "-l"], interval := 0, timeout := 0,
    startPeriod := 0, retries := 0 }

/-- Config whose test vector is CMD followed by an empty string: its
resolved argv starts with the
empty string. -/
def cfgCmdEmpty : HealthConfig :=
  { test := ["CMD", ""], interval := 0, timeout := 0,
    startPeriod := 0, retries := 0 }

/-- A container whose task exists but is stopped, together with an absent
config label (so a config error would be possible if it were checked
first). -/
def envStopped : Env :=
  { taskView := .status "stopped", infoErr := none,
    configLabel := .absent, statusLabel := .absent,
    procEnv := [], procCwd := "/", outcome := .exited 0,
    stdout := "", stderr := "", startTime := 0, endTime := 0,
    setLabelsErr := none }

/-- A healthcheck config that is not skipped by the systemd adapter. -/
def hcBasic : Healthcheck := { Test := ["CMD", "true"], Interval := 1000000000 }

/-! ## Scratch checks -/

example : goTrimSpace "  ok \n" = "ok" := by decide

example : goDurationString 2000000000 = "2s" := by decide

example : goDurationString 1500 = "1.5µs" := by decide

example : goDurationString 90000000000 = "1m30s" := by decide

example :
    HealthCheckRun envTimeout =
      { err := some "health check timed out after 2s",
        statusWritten := some
          { status := Unhealthy, failingStreak := 1,
            log := [{ start := 0, end_ := 2000000000, exitCode := 1,
                      output := "health check timed out: partial" }] },
        sigkillSent := true } := by decide

example :
    prepareProcessSpec cfgCmd ["MYVAR=test-value"] "/tmp" =
      .ok { args := ["ls", "-l"], env := ["MYVAR=test-value"], cwd := "/tmp" } := rfl

example :
    prepareProcessSpec cfgCmdEmpty [] "/" =
      .error "no health check command specified" := rfl

/-! ## Claim theorems -/

/-- C1: on a probe that exceeds `ProbeSpec.timeout`, `HealthCheck` delivers
`SIGKILL`, invokes the state update before returning and returns the
top-level error `health check timed out after <timeout>` — but the log
entry it records carries `exitCode = 1`, not the `-1` the claim (and the
repository's own test, part_001 line 486) requires; the logged output is
`"health check timed out: "` plus the captured output trimmed of leading
and trailing whitespace. -/
theorem healthcheck_timeout_records_exit_code_one :
    (HealthCheckRun envTimeout).sigkillSent = true ∧
    (HealthCheckRun envTimeout).err = some "health check timed out after 2s" ∧
    (HealthCheckRun envTimeout).statusWritten = some
      { status := Unhealthy, failingStreak := 1,
        log := [{ start := 0, end_ := 2000000000, exitCode := 1,
                  output := "health check timed out: partial" }] } ∧
    (HealthCheckRun envTimeout).statusWritten ≠ some
      { status := Unhealthy, failingStreak := 1,
        log := [{ start := 0, end_ := 2000000000, exitCode := -1,
                  output := "health check timed out: partial" }] } := by decide

/-- C2: `updateHealthStatus` has no notion of a start period at all (the
transition takes neither `now` nor the task start time); a failing probe
under `--health-start-period 30s --health-retries 2` run right after task
start increments `failingStreak` to 1 and moves `status` off `starting`
(to `healthy`), where the claim and the repository's own test
(part_001, "Failed healthchecks in start-period do not change status")
require `failingStreak = 0` and `status = starting`. -/
theorem update_ignores_start_period :
    (updateHealthStatusCore cfgStartPeriod initialHealthStatus 1 "" 0
        1000000000).failingStreak = 1 ∧
    (updateHealthStatusCore cfgStartPeriod initialHealthStatus 1 "" 0
        1000000000).status = Healthy ∧
    (updateHealthStatusCore cfgStartPeriod initialHealthStatus 1 "" 0
        1000000000).status ≠ Starting := by decide

/-- C5: the state updater stores the probe output verbatim: a 5000-byte
output is persisted unmodified, exceeding the 4 KiB bound the claim (and
the repository's own test, part_001 "Healthcheck with large output gets
truncated in health log") requires, and no `[truncated]` suffix is ever
appended. -/
theorem update_stores_output_unbounded :
    (updateHealthStatusCore cfgRetries3 initialHealthStatus 0 bigOutput 0 1).log
      = [{ start := 0, end_ := 1, exitCode := 0, output := bigOutput }] ∧
    4096 < bigOutput.length := by
  constructor
  · rfl
  · show 4096 < (List.replicate 5000 'X').length
    rw [List.length_replicate]
    norm_num

/-- C3 counterexample: one failing probe (exit code 1, `retries = 3`)
applied to the initial record yields `status = healthy` with
`failingStreak = 1`, so `status == healthy` does not imply
`failingStreak == 0` on records reachable under the code's transition. -/
theorem healthy_with_positive_streak_cex :
    (runProbes [failInput3]).status = Healthy ∧
    (runProbes [failInput3]).failingStreak = 1 := by decide

/-- C4 counterexample: a non-zero probe exit whose incremented streak (1)
is strictly below the threshold `max 1 retries = 3` does not leave the
record's status at its previous value: it moves `starting` to `healthy`. -/
theorem subthreshold_failure_sets_healthy_cex :
    initialHealthStatus.failingStreak + 1 < max 1 cfgRetries3.retries ∧
    (updateHealthStatusCore cfgRetries3 initialHealthStatus 1 "" 0 1).status
      = Healthy ∧
    initialHealthStatus.status = Starting ∧
    Healthy ≠ Starting := by decide

/-- C9 counterexample: for a container whose healthcheck config is not
skipped, a failure to establish the DBus connection is returned as an
error — `RemoveTransientHealthCheckFiles` does not swallow every DBus
error and return success. -/
theorem remove_transient_conn_error_cex :
    shouldSkipHealthCheckSystemd true false (some hcBasic) = false ∧
    (RemoveTransientHealthCheckFiles (some hcBasic) true false "cid0"
        { connOK := false, stopTimerResult := none,
          stopServiceResult := none }).err
      = some "systemd DBUS connect error" ∧
    (RemoveTransientHealthCheckFiles (some hcBasic) true false "cid0"
        { connOK := false, stopTimerResult := none,
          stopServiceResult := none }).err ≠ none := by decide

/-- The trim-to-last-5 step of `updateHealthStatus` written without the
branch: when the list is already short the `Nat` subtraction is 0. -/
theorem keepLastFive_eq (l : List Log) :
    (if l.length > 5 then l.drop (l.length - 5) else l) = l.drop (l.length - 5) := by
  split
  · rfl
  · rename_i h
    have h0 : l.length - 5 = 0 := by omega
    rw [h0, List.drop_zero]

/-- The log computed by one state update, in closed form: the entry built
from the probe result is appended and the front is dropped so that exactly
the last 5 entries remain. -/
theorem updateHealthStatusCore_log (config : HealthConfig) (prev : HealthStatus)
    (exitCode : Nat) (output : String) (t0 t1 : Int) :
    (updateHealthStatusCore config prev exitCode output t0 t1).log
      = (prev.log ++ [mkLog t0 t1 exitCode output]).drop (prev.log.length + 1 - 5) := by
  have hstruct : (updateHealthStatusCore config prev exitCode output t0 t1).log
      = (if (prev.log ++ [mkLog t0 t1 exitCode output]).length > 5 then
            (prev.log ++ [mkLog t0 t1 exitCode output]).drop
              ((prev.log ++ [mkLog t0 t1 exitCode output]).length - 5)
          else
            prev.log ++ [mkLog t0 t1 exitCode output]) := by
    unfold updateHealthStatusCore mkLog
    by_cases h0 : exitCode = 0
    · simp [h0]
    · by_cases h1 : prev.failingStreak + 1 ≥ config.retries <;> simp [h0, h1]
  rw [hstruct, keepLastFive_eq]
  have hlen : (prev.log ++ [mkLog t0 t1 exitCode output]).length
      = prev.log.length + 1 := by simp
  rw [hlen]

/-- C6: every state update appends exactly the one entry built from the
probe result and retains exactly the last 5 entries of the extended log in
order (dropping from the front), so the resulting log always has length at
most 5. -/
theorem update_log_keeps_last_five (config : HealthConfig) (prev : HealthStatus)
    (exitCode : Nat) (output : String) (t0 t1 : Int) :
    (updateHealthStatusCore config prev exitCode output t0 t1).log
      = (prev.log ++ [mkLog t0 t1 exitCode output]).drop (prev.log.length + 1 - 5) ∧
    (updateHealthStatusCore config prev exitCode output t0 t1).log.length ≤ 5 := by
  refine ⟨updateHealthStatusCore_log config prev exitCode output t0 t1, ?_⟩
  rw [updateHealthStatusCore_log config prev exitCode output t0 t1]
  rw [List.length_drop]
  simp only [List.length_append, List.length_singleton]
  omega

/-- C3 (amended): on records reachable from the initial record,
`status == healthy` implies `failingStreak == 0` only when the last applied
probe succeeded; after a failed probe the record can be healthy with a
positive streak, in which case the streak is strictly below that update's
`Retries`. -/
theorem healthy_record_streak_bound (l : List ProbeInput)
    (h : (runProbes l).status = Healthy) :
    (runProbes l).failingStreak = 0 ∨
    ∃ last, l.getLast? = some last ∧ last.exitCode ≠ 0 ∧
      (runProbes l).failingStreak < last.config.retries := by
  rcases l.eq_nil_or_concat' with rfl | ⟨l', a, rfl⟩
  · exact absurd h (by decide)
  · simp only [runProbes, List.foldl_append, List.foldl_cons, List.foldl_nil] at h ⊢
    by_cases hc : a.exitCode = 0
    · left
      simp [applyProbe, updateHealthStatusCore, hc]
    · by_cases hge : (List.foldl applyProbe initialHealthStatus l').failingStreak + 1
          ≥ a.config.retries
      · exfalso
        simp [applyProbe, updateHealthStatusCore, hc, hge] at h
        exact absurd h (by decide)
      · right
        refine ⟨a, List.getLast?_concat _, hc, ?_⟩
        simp [applyProbe, updateHealthStatusCore, hc, hge]
        omega

/-- Witness for `healthy_record_streak_bound` at the single successful
probe `okInput3`. -/
theorem healthy_record_streak_bound_witness :
    (runProbes [okInput3]).failingStreak = 0 ∨
    ∃ last, [okInput3].getLast? = some last ∧ last.exitCode ≠ 0 ∧
      (runProbes [okInput3]).failingStreak < last.config.retries :=
  healthy_record_streak_bound [okInput3] (by decide)

/-- C4 (amended): when a probe fails with non-zero exit code and the
incremented `failingStreak` is still strictly below `max 1 retries`, the
state update increments `failingStreak` by exactly 1 and sets the record's
status to `healthy` (it does not leave the previous status in place; the
earlier part_003 variant is the one that leaves it unchanged). -/
theorem subthreshold_failure_increments_and_sets_healthy
    (config : HealthConfig) (prev : HealthStatus) (exitCode : Nat)
    (output : String) (t0 t1 : Int)
    (hne : exitCode ≠ 0) (hnn : 0 ≤ prev.failingStreak)
    (hlt : prev.failingStreak + 1 < max 1 config.retries) :
    (updateHealthStatusCore config prev exitCode output t0 t1).failingStreak
        = prev.failingStreak + 1 ∧
    (updateHealthStatusCore config prev exitCode output t0 t1).status = Healthy := by
  have hretries : ¬ (prev.failingStreak + 1 ≥ config.retries) := by
    rcases max_choice 1 config.retries with hm | hm <;> rw [hm] at hlt <;> omega
  simp [updateHealthStatusCore, hne, hretries]

/-- Witness for `subthreshold_failure_increments_and_sets_healthy`:
a first failure under `retries = 3`. -/
theorem subthreshold_failure_increments_and_sets_healthy_witness :
    (updateHealthStatusCore cfgRetries3 initialHealthStatus 1 "oops" 0 1).failingStreak
        = initialHealthStatus.failingStreak + 1 ∧
    (updateHealthStatusCore cfgRetries3 initialHealthStatus 1 "oops" 0 1).status
        = Healthy :=
  subthreshold_failure_increments_and_sets_healthy cfgRetries3 initialHealthStatus
    1 "oops" 0 1 (by decide) (by decide) (by decide)

/-- The part_003 variant of the transition for comparison: a failure kept
below the retry threshold leaves the status field unchanged there. -/
theorem subthreshold_failure_v0_leaves_status (config : HealthConfig)
    (prev : HealthStatusV0) (exitCode : Nat) (output : String) (t0 t1 : Int)
    (hne : exitCode ≠ 0)
    (hlt : ¬ (prev.failingStreak + 1 ≥ config.retries)) :
    (updateHealthStatusCoreV0 config prev exitCode output t0 t1).status
      = prev.status := by
  simp [updateHealthStatusCoreV0, hne, hlt]

/-- C7: whenever the resolver succeeds, the produced process descriptor
carries the container's env vector and working directory verbatim — no
synthetic `PATH`, no default working directory (unlike the part_003
variant, which hard-codes a `PATH` and `Cwd: "/"`). -/
theorem prepare_process_spec_inherits_env_cwd
    (config : HealthConfig) (cenv : List String) (cwd : String) (ps : ProcessSpec)
    (h : prepareProcessSpec config cenv cwd = .ok ps) :
    ps.env = cenv ∧ ps.cwd = cwd := by
  unfold prepareProcessSpec at h
  split at h
  · exact Except.noConfusion h
  · rcases hres : resolveHealthCheckArgs config.test with e | args
    · rw [hres] at h
      simp only [] at h
      exact Except.noConfusion h
    · rw [hres] at h
      simp only [] at h
      split at h
      · exact Except.noConfusion h
      · injection h with h
        subst h
        exact ⟨rfl, rfl⟩

/-- Witness for `prepare_process_spec_inherits_env_cwd` at a concrete
`["CMD", "ls", "-l"]` config. -/
theorem prepare_process_spec_inherits_env_cwd_witness :
    prepareProcessSpec cfgCmd ["MYVAR=test-value"] "/tmp"
      = .ok { args := ["ls", "-l"], env := ["MYVAR=test-value"], cwd := "/tmp" } ∧
    (ProcessSpec.mk ["ls", "-l"] ["MYVAR=test-value"] "/tmp").env = ["MYVAR=test-value"] ∧
    (ProcessSpec.mk ["ls", "-l"] ["MYVAR=test-value"] "/tmp").cwd = "/tmp" :=
  ⟨rfl, prepare_process_spec_inherits_env_cwd cfgCmd ["MYVAR=test-value"] "/tmp"
    (ProcessSpec.mk ["ls", "-l"] ["MYVAR=test-value"] "/tmp") rfl⟩

/-- C8: when the container's task is absent (lookup fails), its status
query fails, or its status is not `running`, `HealthCheck` returns that
task/status error — regardless of the config label's state — and the
`healthcheck/status` label is not written. -/
theorem healthcheck_task_errors_precede_config (env : Env) :
    (∀ inner, env.taskView = .lookupErr inner →
      (HealthCheckRun env).err = some ("failed to get container task: " ++ inner) ∧
      (HealthCheckRun env).statusWritten = none) ∧
    (∀ inner, env.taskView = .statusErr inner →
      (HealthCheckRun env).err = some ("failed to get container status: " ++ inner) ∧
      (HealthCheckRun env).statusWritten = none) ∧
    (∀ s, env.taskView = .status s → s ≠ RunningStatus →
      (HealthCheckRun env).err
          = some ("container is not running (status: " ++ s ++ ")") ∧
      (HealthCheckRun env).statusWritten = none) := by
  refine ⟨?_, ?_, ?_⟩
  · intro inner hx
    simp [HealthCheckRun, verifyContainerStatus, hx]
  · intro inner hx
    simp [HealthCheckRun, verifyContainerStatus, hx]
  · intro s hx hs
    simp [HealthCheckRun, verifyContainerStatus, hx, hs]

/-- Witness for `healthcheck_task_errors_precede_config`: a stopped task
with an absent config label still yields the not-running error and no
label write. -/
theorem healthcheck_task_errors_precede_config_witness :
    (HealthCheckRun envStopped).err
      = some ("container is not running (status: " ++ "stopped" ++ ")") ∧
    (HealthCheckRun envStopped).statusWritten = none :=
  (healthcheck_task_errors_precede_config envStopped).2.2 "stopped" rfl (by decide)

/-- C9 (amended): for a non-skipped healthcheck config, once the DBus
connection is established, `RemoveTransientHealthCheckFiles` stops both
`<base>.timer` and `<base>.service` with `ignore-dependencies` mode,
resets the service's failed state, and returns success whatever the stop
calls produce (errors or non-`done` job results are swallowed); a DBus
connection failure, however, is returned as an error. -/
theorem remove_transient_best_effort (hc : Option Healthcheck)
    (systemdAvailable disableHCSystemd : Bool) (cid : String) (env : DBusEnv)
    (hskip : shouldSkipHealthCheckSystemd systemdAvailable disableHCSystemd hc = false)
    (hconn : env.connOK = true) :
    (RemoveTransientHealthCheckFiles hc systemdAvailable disableHCSystemd
        cid env).err = none ∧
    (RemoveTransientHealthCheckFiles hc systemdAvailable disableHCSystemd
        cid env).stopCalls
      = [(cid ++ ".timer", "ignore-dependencies"),
         (cid ++ ".service", "ignore-dependencies")] ∧
    (RemoveTransientHealthCheckFiles hc systemdAvailable disableHCSystemd
        cid env).resetCalls = [cid ++ ".service"] := by
  cases hc with
  | none =>
    exfalso
    unfold shouldSkipHealthCheckSystemd at hskip
    split at hskip
    · exact Bool.noConfusion hskip
    · exact Bool.noConfusion hskip
  | some h =>
    simp [RemoveTransientHealthCheckFiles, hskip, hconn, hcUnitName]

/-- Witness for `remove_transient_best_effort`: both stop calls issued and
success returned even though the timer stop call errored (unit already
gone) and the service stop reported `failed`. -/
theorem remove_transient_best_effort_witness :
    (RemoveTransientHealthCheckFiles (some hcBasic) true false "cid1"
        { connOK := true, stopTimerResult := none,
          stopServiceResult := some "failed" }).err = none ∧
    (RemoveTransientHealthCheckFiles (some hcBasic) true false "cid1"
        { connOK := true, stopTimerResult := none,
          stopServiceResult := some "failed" }).stopCalls
      = [("cid1" ++ ".timer", "ignore-dependencies"),
         ("cid1" ++ ".service", "ignore-dependencies")] ∧
    (RemoveTransientHealthCheckFiles (some hcBasic) true false "cid1"
        { connOK := true, stopTimerResult := none,
          stopServiceResult := some "failed" }).resetCalls
      = ["cid1" ++ ".service"] :=
  remove_transient_best_effort (some hcBasic) true false "cid1"
    { connOK := true, stopTimerResult := none, stopServiceResult := some "failed" }
    (by decide) rfl

/-- C10: the resolver refuses an empty resolved command: a `CMD` vector
with no further elements or an empty first argument yields the error
`no health check command specified`, and whenever it does succeed the argv
is non-empty with a non-empty first element, so no exec request is issued
with an empty command. -/
theorem prepare_process_spec_rejects_empty_command :
    (∀ (config : HealthConfig) (rest : List String) (cenv : List String) (cwd : String),
      config.test = "CMD" :: rest → (rest = [] ∨ rest.head? = some "") →
      prepareProcessSpec config cenv cwd = .error "no health check command specified") ∧
    (∀ (config : HealthConfig) (cenv : List String) (cwd : String) (ps : ProcessSpec),
      prepareProcessSpec config cenv cwd = .ok ps →
      ps.args ≠ [] ∧ ps.args.head? ≠ some "") := by
  constructor
  · intro config rest cenv cwd htest hrest
    have hres : resolveHealthCheckArgs ("CMD" :: rest) = .ok rest := by
      unfold resolveHealthCheckArgs
      simp [HealthCheckTestNone, HealthCheckCmdNone, HealthCheckCmd]
    unfold prepareProcessSpec
    rw [htest]
    rcases hrest with rfl | hhead
    · simp [hres]
    · rcases rest with _ | ⟨r0, rt⟩
      · exact absurd hhead (by simp)
      · have : r0 = "" := by simpa using hhead
        subst this
        simp [hres]
  · intro config cenv cwd ps h
    unfold prepareProcessSpec at h
    split at h
    · exact Except.noConfusion h
    · rcases hres : resolveHealthCheckArgs config.test with e | args
      · rw [hres] at h
        simp only [] at h
        exact Except.noConfusion h
      · rw [hres] at h
        simp only [] at h
        split at h
        · exact Except.noConfusion h
        · rename_i hguard
          injection h with h
          subst h
          push_neg at hguard
          rcases args with _ | ⟨a0, tl⟩
          · simp at hguard
          · refine ⟨by simp, ?_⟩
            have ha0 : a0 ≠ "" := by simpa using hguard.2
            simp [ha0]

/-- Witness for `prepare_process_spec_rejects_empty_command` at
`Test = ["CMD", ""]`. -/
theorem prepare_process_spec_rejects_empty_command_witness :
    prepareProcessSpec cfgCmdEmpty [] "/"
      = .error "no health check command specified" :=
  prepare_process_spec_rejects_empty_command.1 cfgCmdEmpty [""] [] "/"
    rfl (Or.inr rfl)
